import Mathlib

/-!
Verification of the authentication core of the employee-management
repository: credential issuer (`register`, `login`, `changePassword` in
`src/backend/src/resolvers/userResolvers.js`), token verifier
(`verifyToken` in the auth middleware), GraphQL context construction
(`src/backend/src/index.js`), and the client-side session context
(`AuthProvider`).

The JavaScript code is shallowly embedded: the Mongo-backed user store
becomes an explicit `Store` value threaded through the operations, JWT
signing/verification becomes a constructor carrying the signing secret
together with a check that the verifying secret matches and the token is
unexpired, and thrown errors become `Except` values.  `try/catch` blocks
are embedded by pattern-matching on the `Except` result of the guarded
body.
-/

namespace EmpAuth

/-- User role, from the `Role` enum of the User model (`admin | employee`,
default `employee`). -/
inductive Role where
  | admin
  | employee
deriving DecidableEq, Repr

/-- The public identity shape `{ id, name, email, role }`: it is both the
`user` claims object embedded in tokens by `register`/`login` and the
value returned by `verifyToken` on success. -/
structure UserInfo where
  id : Nat
  name : String
  email : String
  role : Role
deriving DecidableEq, Repr

/-- A persisted User record.  `passwordHash` is the stored one-way digest
of the password (the plaintext is never stored). -/
structure StoredUser where
  id : Nat
  name : String
  email : String
  passwordHash : String
  role : Role
deriving DecidableEq, Repr

/-- The user store (MongoDB via mongoose).  `users` is the collection,
`nextId` models ObjectId generation for freshly inserted records, and
`available` models store connectivity: when it is `false` every awaited
store call rejects. -/
structure Store where
  users : List StoredUser
  nextId : Nat
  available : Bool
deriving DecidableEq, Repr

/-- Store/connectivity failure: the rejection produced by an awaited
mongoose call when the database is unreachable. -/
inductive StoreError where
  | storeUnavailable
deriving DecidableEq, Repr

/-- `User.findOne({ email })`: first stored user with the given email, or
a rejection when the store is down. -/
def findOneByEmail (s : Store) (email : String) :
    Except StoreError (Option StoredUser) :=
  if s.available then
    .ok (s.users.find? (fun u => u.email = email))
  else
    .error .storeUnavailable

/-- `User.findById(id)`: the stored user with the given id, or a rejection
when the store is down. -/
def findById (s : Store) (id : Nat) :
    Except StoreError (Option StoredUser) :=
  if s.available then
    .ok (s.users.find? (fun u => u.id = id))
  else
    .error .storeUnavailable

/-- `user.save()` for a new document: appends the record and advances id
generation, or rejects when the store is down. -/
def saveNewUser (s : Store) (u : StoredUser) : Except StoreError Store :=
  if s.available then
    .ok { users := s.users ++ [u], nextId := s.nextId + 1, available := true }
  else
    .error .storeUnavailable

/-- `foundUser.save()` after mutating the password field: replaces the
stored hash of the record with the given id. -/
def savePassword (s : Store) (id : Nat) (newHash : String) :
    Except StoreError Store :=
  if s.available then
    let rehash := fun (u : StoredUser) =>
      if u.id = id then { u with passwordHash := newHash } else u
    .ok { s with users := s.users.map rehash }
  else
    .error .storeUnavailable

/-- Modelled from the spec: the password-hashing collaborator
(`hash(plaintext) → digest`, bcrypt in the implementation; the User model
file holding the pre-save hashing hook is not part of the sources).  The
digest is a deterministic one-way derivation of the plaintext; determinism
and injectivity on distinct plaintexts are all the resolvers rely on. -/
def hashPw (plaintext : String) : String :=
  "bcrypt$" ++ plaintext

/-- Modelled from the spec: `user.comparePassword(candidate)` of the User
model — `verify(plaintext, digest) → bool`, true exactly when the
candidate hashes to the stored digest. -/
def comparePassword (candidate : String) (u : StoredUser) : Bool :=
  hashPw candidate = u.passwordHash

/-- The symmetric signing secret `JWT_SECRET` (environment value or the
development default), shared by the issuer and the verifier. -/
def JWT_SECRET : String := "your-secret-key"

/-- Token lifetime: `expiresIn: '7d'`, in seconds. -/
def sevenDays : Nat := 7 * 24 * 60 * 60

/-- The claims payload of a session token: `{ user, iat, exp }`. -/
structure Claims where
  user : UserInfo
  iat : Nat
  exp : Nat
deriving DecidableEq, Repr

/-- A presented token: either a well-formed signed token (the constructor
records the secret the signature was produced with) or a structurally
malformed string. -/
inductive Token where
  | malformed (raw : String)
  | signed (claims : Claims) (secret : String)
deriving DecidableEq, Repr

/-- `jwt.sign(payload, secret, { expiresIn: '7d' })`: a signed token whose
claims carry issuance time and expiry seven days later. -/
def jwtSign (user : UserInfo) (secret : String) (now : Nat) : Token :=
  .signed { user := user, iat := now, exp := now + sevenDays } secret

/-- Failure modes of `jwt.verify`: malformed input, signature produced
with a different secret, or expired claims. -/
inductive JwtError where
  | malformed
  | badSignature
  | expired
deriving DecidableEq, Repr

/-- `jwt.verify(token, secret)`: rejects malformed tokens, tokens signed
with a different secret, and tokens whose `exp` is not in the future;
otherwise returns the decoded claims. -/
def jwtVerify (t : Token) (secret : String) (now : Nat) :
    Except JwtError Claims :=
  match t with
  | .malformed _ => .error .malformed
  | .signed c sec =>
      if sec ≠ secret then .error .badSignature
      else if c.exp ≤ now then .error .expired
      else .ok c

/-- GraphQL-level errors thrown by the resolvers: `UserInputError` and
`AuthenticationError` carry their message; an awaited store rejection that
the resolver does not catch propagates as `store`. -/
inductive GqlError where
  | userInput (message : String)
  | auth (message : String)
  | store (e : StoreError)
deriving DecidableEq, Repr

/-- Registration input `{ name, email, password, role }` (role optional). -/
structure RegisterInput where
  name : String
  email : String
  password : String
  role : Option Role
deriving DecidableEq, Repr

/-- The `register` mutation resolver: rejects when the email is already in
use (`UserInputError "Email already exists"`), otherwise persists a new
User with the hashed password and role defaulting to `employee`, and
returns a token signed over `{ id, name, email, role }` expiring in seven
days.  The resulting store is returned alongside the outcome. -/
def register (input : RegisterInput) (s : Store) (now : Nat) :
    Except GqlError Token × Store :=
  match findOneByEmail s input.email with
  | .error e => (.error (.store e), s)
  | .ok (some _) => (.error (.userInput ("Email already exists")), s)
  | .ok none =>
      let u : StoredUser :=
        { id := s.nextId
          name := input.name
          email := input.email
          passwordHash := hashPw input.password
          role := input.role.getD .employee }
      match saveNewUser s u with
      | .error e => (.error (.store e), s)
      | .ok s2 =>
          let tok := jwtSign
            { id := u.id, name := u.name, email := u.email, role := u.role }
            JWT_SECRET now
          (.ok tok, s2)

/-- The `login` mutation resolver: looks the User up by email; an unknown
email and a password that does not match the stored hash both fail with
`UserInputError "Invalid email or password"`; on success issues a token of
the same shape as registration's. -/
def login (email password : String) (s : Store) (now : Nat) :
    Except GqlError Token :=
  match findOneByEmail s email with
  | .error e => .error (.store e)
  | .ok none => .error (.userInput ("Invalid email or password"))
  | .ok (some u) =>
      if comparePassword password u then
        .ok (jwtSign
          { id := u.id, name := u.name, email := u.email, role := u.role }
          JWT_SECRET now)
      else
        .error (.userInput ("Invalid email or password"))

/-- Outcome shape of `changePassword`: `{ success, message }`. -/
structure PwChangeOutcome where
  success : Bool
  message : String
deriving DecidableEq, Repr

/-- The `changePassword` mutation resolver: throws when unauthenticated or
when the context user no longer resolves; returns a structured failure
when the current password does not match or the new password has fewer
than 8 characters; otherwise persists the re-hashed password.  The
resulting store is returned alongside the outcome. -/
def changePassword (ctxUser : Option UserInfo)
    (currentPassword newPassword : String) (s : Store) :
    Except GqlError PwChangeOutcome × Store :=
  match ctxUser with
  | none => (.error (.auth ("Not authenticated")), s)
  | some cu =>
      match findById s cu.id with
      | .error e => (.error (.store e), s)
      | .ok none => (.error (.userInput ("User not found")), s)
      | .ok (some foundUser) =>
          if ¬ comparePassword currentPassword foundUser then
            (.ok { success := false
                   message := "Current password is incorrect" }, s)
          else if newPassword.length < 8 then
            (.ok { success := false
                   message := "New password must be at least 8 characters" }, s)
          else
            match savePassword s foundUser.id (hashPw newPassword) with
            | .error e => (.error (.store e), s)
            | .ok s2 =>
                (.ok { success := true
                       message := "Password changed successfully" }, s2)

/-- Failures that can arise inside the `try` block of `verifyToken`:
a `jwt.verify` failure or a store rejection from `User.findById`. -/
inductive VerifyError where
  | jwt (e : JwtError)
  | store (e : StoreError)
deriving DecidableEq, Repr

/-- The body of `verifyToken`'s `try` block, before the `catch`: verify
the token against the shared secret, re-resolve the embedded user id
against the live store, return `none` when the user no longer exists, and
otherwise the freshly fetched `{ id, name, email, role }`. -/
def verifyTokenRun (t : Token) (s : Store) (now : Nat) :
    Except VerifyError (Option UserInfo) :=
  match jwtVerify t JWT_SECRET now with
  | .error e => .error (.jwt e)
  | .ok decoded =>
      match findById s decoded.user.id with
      | .error e => .error (.store e)
      | .ok none => .ok none
      | .ok (some user) =>
          .ok (some { id := user.id
                      name := user.name
                      email := user.email
                      role := user.role })

/-- `verifyToken` of the auth middleware: the `try` body with its
`catch (error) { return null }` — every failure of the body becomes
`none`. -/
def verifyToken (t : Token) (s : Store) (now : Nat) : Option UserInfo :=
  match verifyTokenRun t s now with
  | .ok v => v
  | .error _ => none

/-- JavaScript `str.split(' ')` on a character list: splits at every
single space, keeping empty components (`"".split(' ')` is `[""]`). -/
def splitOnSpace : List Char → List (List Char)
  | [] => [[]]
  | c :: rest =>
      let r := splitOnSpace rest
      if c = ' ' then [] :: r
      else
        match r with
        | [] => [[c]]
        | w :: ws => (c :: w) :: ws

/-- JavaScript `str.split(' ')` on strings. -/
def jsSplitSpace (s : String) : List String :=
  (splitOnSpace s.toList).map (fun cs => String.mk cs)

/-- The raw bearer-token extraction of the GraphQL context builder:
`req.headers.authorization?.split(' ')[1] || ''` — the second
space-separated component of the Authorization header, or the empty
string when the header is absent or has no such component. -/
def extractToken (authHeader : Option String) : String :=
  match authHeader with
  | none => ""
  | some h => (jsSplitSpace h).getD 1 ""

/-- The `expressMiddleware` context function of `src/backend/src/index.js`:
`user = token ? await verifyToken(token) : null`.  The verifier is passed
as a function from raw token strings; the boolean records whether it was
invoked. -/
def buildContext (verifier : String → Option UserInfo)
    (authHeader : Option String) : Option UserInfo × Bool :=
  let token := extractToken authHeader
  if token = "" then (none, false) else (verifier token, true)

/-- The client-side `AuthProvider` state together with the token slot of
`localStorage` and a count of `console.error` diagnostics. -/
structure ClientAuth where
  user : Option UserInfo
  storedToken : Option Token
  diagnostics : Nat
deriving DecidableEq, Repr

/-- `jwtDecode` on the client: structural decoding only — it extracts the
embedded `user` claims from any well-formed token without checking the
signature or expiry, and fails on malformed input. -/
def jwtDecodeClient : Token → Option UserInfo
  | .malformed _ => none
  | .signed c _ => some c.user

/-- `AuthProvider.login(token)`: persist the token to storage, then try to
decode it; on success set the current user; on failure log a diagnostic
and leave the user state as it was. -/
def clientLogin (t : Token) (st : ClientAuth) : ClientAuth :=
  let st1 := { st with storedToken := some t }
  match jwtDecodeClient t with
  | some u => { st1 with user := some u }
  | none => { st1 with diagnostics := st1.diagnostics + 1 }

/-- `isAuthenticated: !!user` of the AuthContext value. -/
def isAuthenticated (st : ClientAuth) : Bool :=
  st.user.isSome

/-! Concrete fixtures, following the spec's sample scenario
(`register("Alice","a@x.com","secret1234")`). -/

/-- Registration input of the sample scenario; no explicit role. -/
def aliceInput : RegisterInput :=
  { name := "Alice", email := "a@x.com", password := "secret1234", role := none }

/-- An empty, reachable store. -/
def emptyStore : Store :=
  { users := [], nextId := 1, available := true }

/-- Alice's persisted record after the sample registration. -/
def aliceStored : StoredUser :=
  { id := 1, name := "Alice", email := "a@x.com"
    passwordHash := hashPw ("secret1234"), role := .employee }

/-- The store holding exactly Alice. -/
def aliceStore : Store :=
  { users := [aliceStored], nextId := 2, available := true }

/-- Alice's public identity. -/
def aliceInfo : UserInfo :=
  { id := 1, name := "Alice", email := "a@x.com", role := .employee }

/-- A correctly signed, long-lived token for Alice. -/
def aliceToken : Token :=
  .signed { user := aliceInfo, iat := 100, exp := 100 + sevenDays } JWT_SECRET

/-- A correctly signed token for Alice whose embedded claims carry the
`admin` role, although her stored role is `employee`. -/
def aliceAdminToken : Token :=
  .signed { user := { aliceInfo with role := .admin }, iat := 0, exp := 1000 }
    JWT_SECRET

/-- Alice's store with connectivity lost. -/
def downStore : Store :=
  { aliceStore with available := false }

/-- A client session currently authenticated as Alice. -/
def authedClient : ClientAuth :=
  { user := some aliceInfo, storedToken := some aliceToken, diagnostics := 0 }

/-- An anonymous client session. -/
def anonClient : ClientAuth :=
  { user := none, storedToken := none, diagnostics := 0 }

/-- A verifier stub that accepts every raw token string, used to show the
context builder ignores the verifier on unauthenticated requests. -/
def acceptAllVerifier : String → Option UserInfo :=
  fun _ => some aliceInfo

/-- Inversion of a successful verification: the token is well-formed,
signed with the shared secret, unexpired, the store was reachable, and
the returned fields are those of the stored record that the embedded
user id resolves to. -/
theorem verifyToken_some_elim (t : Token) (s : Store) (now : Nat)
    (info : UserInfo) (h : verifyToken t s now = some info) :
    ∃ c sec u, t = .signed c sec ∧ sec = JWT_SECRET ∧ now < c.exp ∧
      s.available = true ∧
      s.users.find? (fun v => v.id = c.user.id) = some u ∧
      info = { id := u.id, name := u.name, email := u.email, role := u.role } := by
  cases t with
  | malformed raw => simp [verifyToken, verifyTokenRun, jwtVerify] at h
  | signed c sec =>
      by_cases hsec : sec = JWT_SECRET
      · subst hsec
        by_cases hexp : c.exp ≤ now
        · simp [verifyToken, verifyTokenRun, jwtVerify, hexp] at h
        · by_cases hav : s.available
          · rcases hfind : s.users.find? (fun v => v.id = c.user.id) with _ | u
            · simp [verifyToken, verifyTokenRun, jwtVerify, hexp, findById,
                hav, hfind] at h
            · simp [verifyToken, verifyTokenRun, jwtVerify, hexp, findById,
                hav, hfind] at h
              exact ⟨c, JWT_SECRET, u, rfl, rfl, by omega, hav, hfind, h.symm⟩
          · simp [verifyToken, verifyTokenRun, jwtVerify, hexp, findById,
              hav] at h
      · simp [verifyToken, verifyTokenRun, jwtVerify, hsec] at h

/-- C1: for every successful registration with an email not already in
the store, verifying the returned token against the post-registration
store (while it is unexpired) yields a non-null User whose id, email and
role match the registered identity. -/
theorem C1_register_then_verify (input : RegisterInput) (s : Store)
    (now now2 : Nat) (hav : s.available = true)
    (hdup : s.users.find? (fun u => u.email = input.email) = none)
    (hfresh : s.users.find? (fun u => u.id = s.nextId) = none)
    (hunexp : now2 < now + sevenDays) :
    ∃ tok s2, register input s now = (.ok tok, s2) ∧
      verifyToken tok s2 now2 =
        some { id := s.nextId, name := input.name, email := input.email
               role := input.role.getD .employee } := by
  have hreg : register input s now =
      (.ok (jwtSign
              { id := s.nextId, name := input.name, email := input.email
                role := input.role.getD .employee } JWT_SECRET now),
        { users := s.users ++
            [{ id := s.nextId, name := input.name, email := input.email
               passwordHash := hashPw input.password
               role := input.role.getD .employee }]
          nextId := s.nextId + 1, available := true }) := by
    simp [register, findOneByEmail, saveNewUser, hav, hdup]
  refine ⟨_, _, hreg, ?_⟩
  have hexp : ¬ (now + sevenDays ≤ now2) := by omega
  simp [verifyToken, verifyTokenRun, jwtVerify, jwtSign, findById,
    List.find?_append, hfresh, hexp]

/-- C1 witness: the spec's sample scenario — registering Alice into an
empty store and verifying the issued token recovers her identity. -/
theorem C1_register_then_verify_witness :
    ∃ tok s2, register aliceInput emptyStore 100 = (.ok tok, s2) ∧
      verifyToken tok s2 200 =
        some { id := emptyStore.nextId, name := aliceInput.name
               email := aliceInput.email
               role := aliceInput.role.getD .employee } :=
  C1_register_then_verify aliceInput emptyStore 100 200 rfl rfl rfl (by decide)

/-- C2: a cryptographically valid, unexpired token whose embedded user id
no longer resolves in the store verifies to `none`, not to the stale
identity. -/
theorem C2_deleted_user_unauthenticated (c : Claims) (s : Store) (now : Nat)
    (hav : s.available = true) (hunexp : now < c.exp)
    (hgone : s.users.find? (fun u => u.id = c.user.id) = none) :
    verifyToken (.signed c JWT_SECRET) s now = none := by
  have hexp : ¬ (c.exp ≤ now) := by omega
  simp [verifyToken, verifyTokenRun, jwtVerify, hexp, findById, hav, hgone]

/-- C2 witness: Alice's valid token against a store she was deleted
from. -/
theorem C2_deleted_user_unauthenticated_witness :
    verifyToken
      (.signed { user := aliceInfo, iat := 100, exp := 100 + sevenDays }
        JWT_SECRET) emptyStore 200 = none :=
  C2_deleted_user_unauthenticated
    { user := aliceInfo, iat := 100, exp := 100 + sevenDays }
    emptyStore 200 rfl (by decide) rfl

/-- C3: every structural or cryptographic failure of `jwt.verify`
(malformed token, bad signature, expired claims) makes `verifyToken`
return the value `none` — the failure is caught, not propagated. -/
theorem C3_crypto_failure_yields_null (t : Token) (s : Store) (now : Nat)
    (e : JwtError) (hfail : jwtVerify t JWT_SECRET now = .error e) :
    verifyToken t s now = none := by
  simp [verifyToken, verifyTokenRun, hfail]

/-- C3 witness: a malformed token verifies to `none`. -/
theorem C3_crypto_failure_yields_null_witness :
    verifyToken (Token.malformed ("garbage")) aliceStore 0 = none :=
  C3_crypto_failure_yields_null (Token.malformed ("garbage")) aliceStore 0
    .malformed rfl

/-- C4: registering with an email already present fails with the
duplicate-credential error `UserInputError "Email already exists"` and
returns the store unchanged — no new User is persisted. -/
theorem C4_duplicate_email_no_insert (input : RegisterInput) (s : Store)
    (now : Nat) (u : StoredUser) (hav : s.available = true)
    (hdup : s.users.find? (fun v => v.email = input.email) = some u) :
    register input s now = (.error (.userInput ("Email already exists")), s) := by
  simp [register, findOneByEmail, hav, hdup]

/-- C4 witness: the spec's second sample registration with Alice's email
is rejected and the store is unchanged. -/
theorem C4_duplicate_email_no_insert_witness :
    register { aliceInput with name := "Alice2", password := "other1234" }
        aliceStore 300 =
      (.error (.userInput ("Email already exists")), aliceStore) :=
  C4_duplicate_email_no_insert
    { aliceInput with name := "Alice2", password := "other1234" }
    aliceStore 300 aliceStored rfl rfl

/-- C5: a login with an unknown email and a login with a known email but
wrong password produce the same kind of error with an identical message,
so the two failures are indistinguishable to the caller. -/
theorem C5_login_failures_identical (e1 p1 e2 p2 : String) (s : Store)
    (now : Nat) (u : StoredUser) (hav : s.available = true)
    (h1 : s.users.find? (fun v => v.email = e1) = none)
    (h2 : s.users.find? (fun v => v.email = e2) = some u)
    (hbad : comparePassword p2 u = false) :
    login e1 p1 s now = .error (.userInput ("Invalid email or password")) ∧
    login e2 p2 s now = login e1 p1 s now := by
  constructor
  · simp [login, findOneByEmail, hav, h1]
  · simp [login, findOneByEmail, hav, h1, h2, hbad]

/-- C5 witness: an unknown email and a wrong password against Alice's
store yield equal errors. -/
theorem C5_login_failures_identical_witness :
    login ("b@x.com") ("whatever") aliceStore 400 =
        .error (.userInput ("Invalid email or password")) ∧
    login ("a@x.com") ("wrongpass") aliceStore 400 =
        login ("b@x.com") ("whatever") aliceStore 400 :=
  C5_login_failures_identical ("b@x.com") ("whatever") ("a@x.com") ("wrongpass")
    aliceStore 400 aliceStored rfl rfl rfl rfl

/-- C6: on an authenticated `changePassword` call (the context user was
produced by `verifyToken` against the same store) whose new password has
fewer than 8 characters, the resolver returns a structured failure
outcome rather than throwing, and the store — in particular the stored
password hash — is unchanged. -/
theorem C6_short_password_soft_failure (t : Token) (s : Store) (now : Nat)
    (cu : UserInfo) (currentPassword newPassword : String)
    (hauth : verifyToken t s now = some cu)
    (hshort : newPassword.length < 8) :
    ∃ msg, changePassword (some cu) currentPassword newPassword s =
      (.ok { success := false, message := msg }, s) := by
  obtain ⟨c, sec, u, -, -, -, hav, hfind, hinfo⟩ :=
    verifyToken_some_elim t s now cu hauth
  have hid : u.id = c.user.id := by
    have := List.find?_some hfind
    simpa using this
  have hcuid : cu.id = c.user.id := by rw [hinfo]; exact hid
  have hfindById : findById s cu.id = .ok (some u) := by
    rw [hcuid]
    simp [findById, hav, hfind]
  rcases hcmp : comparePassword currentPassword u with _ | _
  · exact ⟨"Current password is incorrect",
      by simp [changePassword, hfindById, hcmp]⟩
  · exact ⟨"New password must be at least 8 characters",
      by simp [changePassword, hfindById, hcmp, hshort]⟩

/-- C6 witness: Alice, authenticated via her token, asks to change to the
5-character password "short" and gets a soft failure with her store
untouched. -/
theorem C6_short_password_soft_failure_witness :
    ∃ msg, changePassword (some aliceInfo) ("secret1234") ("short") aliceStore =
      (.ok { success := false, message := msg }, aliceStore) :=
  C6_short_password_soft_failure aliceToken aliceStore 200 aliceInfo
    ("secret1234") ("short") rfl (by decide)

/-- C7: whenever `verifyToken` returns a non-null result, every field of
that result is taken from the stored record that the token's embedded
user id resolves to at verification time — not from the claims payload
embedded in the token. -/
theorem C7_fresh_identity_returned (t : Token) (s : Store) (now : Nat)
    (info : UserInfo) (h : verifyToken t s now = some info) :
    ∃ c sec u, t = .signed c sec ∧
      s.users.find? (fun v => v.id = c.user.id) = some u ∧
      info = { id := u.id, name := u.name, email := u.email, role := u.role } := by
  obtain ⟨c, sec, u, ht, -, -, -, hfind, hinfo⟩ :=
    verifyToken_some_elim t s now info h
  exact ⟨c, sec, u, ht, hfind, hinfo⟩

/-- C7 witness: a token embedding the `admin` role for Alice verifies to
her stored identity with the stored `employee` role, not the embedded
copy. -/
theorem C7_fresh_identity_returned_witness :
    verifyToken aliceAdminToken aliceStore 200 = some aliceInfo ∧
    ∃ c sec u, aliceAdminToken = .signed c sec ∧
      aliceStore.users.find? (fun v => v.id = c.user.id) = some u ∧
      aliceInfo = { id := u.id, name := u.name, email := u.email, role := u.role } :=
  ⟨rfl, C7_fresh_identity_returned aliceAdminToken aliceStore 200 aliceInfo rfl⟩

/-- C8 counterexample: with the store unreachable and a valid unexpired
token, the body of `verifyToken` fails with the store-unavailable error,
yet `verifyToken` itself returns `none` — the failure is swallowed by
the `catch` and converted into the unauthenticated result instead of
propagating to the caller. -/
theorem C8_store_failure_counterexample :
    verifyTokenRun aliceToken downStore 200 =
        .error (.store .storeUnavailable) ∧
    verifyToken aliceToken downStore 200 = none :=
  ⟨rfl, rfl⟩

/-- C8 (amended): when the user store fails during verification,
`verifyToken` returns `none`, indistinguishable from the unauthenticated
result; the store failure never reaches the caller. -/
theorem C8_store_failure_swallowed (t : Token) (s : Store) (now : Nat)
    (hdown : s.available = false) :
    verifyToken t s now = none := by
  rcases hj : jwtVerify t JWT_SECRET now with e | c
  · simp [verifyToken, verifyTokenRun, hj]
  · simp [verifyToken, verifyTokenRun, hj, findById, hdown]

/-- C8 witness: Alice's valid token against the unreachable store. -/
theorem C8_store_failure_swallowed_witness :
    downStore.available = false ∧ verifyToken aliceToken downStore 200 = none :=
  ⟨rfl, C8_store_failure_swallowed aliceToken downStore 200 rfl⟩

/-- C9 counterexample: calling the client `login` with an undecodable
token from a session authenticated as Alice leaves the context
authenticated (user still Alice, `isAuthenticated` true) — not anonymous
— and moreover persists the invalid token to storage. -/
theorem C9_failed_decode_counterexample :
    jwtDecodeClient (.malformed ("junk")) = none ∧
    (clientLogin (.malformed ("junk")) authedClient).user = some aliceInfo ∧
    isAuthenticated (clientLogin (.malformed ("junk")) authedClient) = true ∧
    (clientLogin (.malformed ("junk")) authedClient).storedToken =
      some (.malformed ("junk")) :=
  ⟨rfl, rfl, rfl, rfl⟩

/-- C9 (amended): client `login(token)` always persists the token first,
even when decoding fails; on decode failure it logs a diagnostic and
leaves the user state unchanged (so the context stays anonymous exactly
when it already was); on decode success the context transitions to
authenticated with the decoded user. -/
theorem C9_client_login_states (t : Token) (st : ClientAuth) :
    (clientLogin t st).storedToken = some t ∧
    (jwtDecodeClient t = none →
      (clientLogin t st).user = st.user ∧
      (clientLogin t st).diagnostics = st.diagnostics + 1) ∧
    (∀ u, jwtDecodeClient t = some u →
      (clientLogin t st).user = some u) := by
  rcases hd : jwtDecodeClient t with _ | u
  · exact ⟨by simp [clientLogin, hd],
      fun _ => ⟨by simp [clientLogin, hd], by simp [clientLogin, hd]⟩,
      fun u hu => by simp [hd] at hu⟩
  · refine ⟨by simp [clientLogin, hd], fun hn => by simp [hd] at hn,
      fun v hv => ?_⟩
    have huv : u = v := Option.some.inj hv
    subst huv
    simp [clientLogin, hd]

/-- C9 witness: from the anonymous session, a malformed token is
persisted and leaves the session anonymous, while Alice's token
authenticates the session. -/
theorem C9_client_login_states_witness :
    (clientLogin (Token.malformed ("x")) anonClient).storedToken =
        some (Token.malformed ("x")) ∧
    (clientLogin (Token.malformed ("x")) anonClient).user = anonClient.user ∧
    (clientLogin aliceToken anonClient).user = some aliceInfo :=
  ⟨(C9_client_login_states (Token.malformed ("x")) anonClient).1,
    ((C9_client_login_states (Token.malformed ("x")) anonClient).2.1 rfl).1,
    (C9_client_login_states aliceToken anonClient).2.2 aliceInfo rfl⟩

/-- C10: when the Authorization header is absent or carries no token
after the scheme prefix, the GraphQL context is built with a null user
and the token verifier is never invoked — for every possible verifier. -/
theorem C10_unauthenticated_skips_verifier
    (verifier : String → Option UserInfo) (authHeader : Option String)
    (hempty : extractToken authHeader = "") :
    buildContext verifier authHeader = (none, false) := by
  simp [buildContext, hempty]

/-- C10 witness: a missing header and a bare "Bearer" header both build
the null-user context without consulting the accept-everything
verifier. -/
theorem C10_unauthenticated_skips_verifier_witness :
    extractToken none = "" ∧ extractToken (some ("Bearer")) = "" ∧
    buildContext acceptAllVerifier none = (none, false) ∧
    buildContext acceptAllVerifier (some ("Bearer")) = (none, false) :=
  ⟨rfl, rfl,
    C10_unauthenticated_skips_verifier acceptAllVerifier none rfl,
    C10_unauthenticated_skips_verifier acceptAllVerifier (some ("Bearer")) rfl⟩

end EmpAuth
